import Mathlib

/-!
Shallow embedding of the python-skill example of the kubiyabot/skill
repository (src/examples/wasm-skills/python-skill/src/main.py), together
with the ExecutionResult envelope of the skill SDK the example builds on.

Modelling conventions:
- Python floats are modelled as rationals (the example performs exact
  arithmetic on its inputs; the claims speak of the arithmetic results).
- JSON values produced by json.loads are modelled by the inductive JValue.
- json.loads itself is Python standard-library code, not repository code:
  a call either yields a structured value or raises json.JSONDecodeError
  whose text is interpolated into the error message.  It is therefore
  modelled as an Except-valued parse outcome fed to process_list.
- Python dicts with string keys are modelled as association lists in
  insertion order (observable via dict key iteration order in Python).
-/

/-- JSON-like values as produced by json.loads: null, booleans, numbers,
strings, arrays and objects.  Numbers are modelled as rationals. -/
inductive JValue where
  | null : JValue
  | bool (b : Bool) : JValue
  | num (q : ℚ) : JValue
  | str (s : String) : JValue
  | arr (elems : List JValue) : JValue
  | obj (fields : List (String × JValue)) : JValue

/-- Modelled from the spec: the ExecutionResult envelope of the skill SDK
(the skill_sdk module itself is not under src/; spec section 3 gives its
shape: success flag, message, optional structured data, optional error
message). -/
structure ExecutionResult where
  success : Bool
  message : String
  data : Option (List (String × JValue))
  error_message : Option String

/-- Modelled from the spec: the ok constructor of section 4.4, producing
success = true with the given message and data and no error message. -/
def ExecutionResult.ok (message : String)
    (data : Option (List (String × JValue))) : ExecutionResult :=
  ⟨true, message, data, none⟩

/-- Modelled from the spec: the error constructor of section 4.4, producing
success = false, an empty message, no data, and the given error message. -/
def ExecutionResult.error (msg : String) : ExecutionResult :=
  ⟨false, "", none, some msg⟩

/-- The resolved configuration of a PythonExampleSkill instance, fixed in
its initializer and immutable afterwards.  The field named greeting here
models the configuration value named greeting_prefix in the source. -/
structure SkillInstance where
  greeting : String
  max_items : ℕ

/-- An instance resolved from the declared defaults: greeting_prefix
"Hello" and max_items 100. -/
def defaultInstance : SkillInstance :=
  ⟨"Hello", 100⟩

/-- Python str.upper, modelled per character; the example exercises only
ASCII text. -/
def pyUpper (s : String) : String :=
  String.mk (s.data.map Char.toUpper)

/-- Python string slicing s[::-1]: reversal. -/
def pyReverse (s : String) : String :=
  String.mk s.data.reverse

/-- The greet tool: formal or prefixed informal greeting. -/
def greet (inst : SkillInstance) (name : String) (formal : Bool) : String :=
  if formal then "Good day, " ++ name ++ ". How may I assist you?"
  else inst.greeting ++ ", " ++ name ++ "!"

/-- The echo tool: starting from the message, apply upper-casing when the
uppercase flag is set, then reversal when the reverse flag is set. -/
def echo (message : String) (uppercase : Bool) (reverse : Bool) : String :=
  let r1 := if uppercase then pyUpper message else message
  let r2 := if reverse then pyReverse r1 else r1
  r2

/-- The operations dict of the calculate tool, in declaration order.  Every
operation yields a value except divide, which yields none when the second
operand is zero (x / y if y != 0 else None). -/
def operations : List (String × (ℚ → ℚ → Option ℚ)) :=
  [("add", fun x y => some (x + y)),
   ("subtract", fun x y => some (x - y)),
   ("multiply", fun x y => some (x * y)),
   ("divide", fun x y => if y ≠ 0 then some (x / y) else none)]

/-- The calculate tool: look the operation up in the operations dict,
report an unknown operation listing the valid keys, report division by
zero when the divide operation yielded none, and otherwise return success
with the result and the echoed inputs as data. -/
def calculate (a b : ℚ) (operation : String) : ExecutionResult :=
  match List.lookup operation operations with
  | none =>
      ExecutionResult.error
        ("Unknown operation: " ++ operation ++ ". Valid: " ++
          String.intercalate ", " (operations.map Prod.fst))
  | some f =>
      match f a b with
      | none => ExecutionResult.error "Division by zero"
      | some result =>
          ExecutionResult.ok
            (toString a ++ " " ++ operation ++ " " ++ toString b ++ " = " ++
              toString result)
            (some [("result", JValue.num result),
                   ("operation", JValue.str operation),
                   ("a", JValue.num a),
                   ("b", JValue.num b)])

/-- The numeric filter of process_list: float(x) for x in data if
isinstance(x, (int, float)).  Python bool is a subclass of int, so JSON
booleans pass the isinstance filter and coerce to 1.0 and 0.0; strings,
null, arrays and objects are dropped. -/
def coerceNumber : JValue → Option ℚ
  | JValue.num q => some q
  | JValue.bool b => some (if b then 1 else 0)
  | _ => none

/-- Python sum over the filtered numbers. -/
def pySum (xs : List ℚ) : ℚ :=
  xs.foldl (fun acc x => acc + x) 0

/-- Python min over a non-empty list, as a fold of binary min over the
tail. -/
def pyMin (x : ℚ) (xs : List ℚ) : ℚ :=
  xs.foldl min x

/-- Python max over a non-empty list, as a fold of binary max over the
tail. -/
def pyMax (x : ℚ) (xs : List ℚ) : ℚ :=
  xs.foldl max x

/-- The process_list tool, taking the outcome of the json.loads parse of
its items argument.  A decode error becomes an Invalid JSON failure; a
non-array value becomes an array-shape failure; an oversized array becomes
a too-many-items failure naming the maximum; an array whose numeric subset
is empty becomes a no-valid-numbers failure; otherwise the statistics are
returned as data.  The ValueError handler of the source is unreachable
(float never raises on an int or float argument) and has no branch here. -/
def process_list (inst : SkillInstance) (parsed : Except String JValue) :
    ExecutionResult :=
  match parsed with
  | Except.error e => ExecutionResult.error ("Invalid JSON: " ++ e)
  | Except.ok data =>
      match data with
      | JValue.arr elems =>
          if elems.length > inst.max_items then
            ExecutionResult.error
              ("Too many items (" ++ toString elems.length ++ "). Maximum: " ++
                toString inst.max_items)
          else
            match elems.filterMap coerceNumber with
            | [] => ExecutionResult.error "No valid numbers in input"
            | n :: rest =>
                ExecutionResult.ok
                  ("Processed " ++ toString (n :: rest).length ++ " items")
                  (some [("count", JValue.num ((n :: rest).length : ℚ)),
                         ("sum", JValue.num (pySum (n :: rest))),
                         ("min", JValue.num (pyMin n rest)),
                         ("max", JValue.num (pyMax n rest)),
                         ("average",
                          JValue.num (pySum (n :: rest) /
                            ((n :: rest).length : ℚ)))])
      | _ => ExecutionResult.error "Input must be a JSON array"

/-- The status tool: a dict of skill name, version, the resolved
configuration, and the tool names, read only from the immutable instance
configuration. -/
def status (inst : SkillInstance) : JValue :=
  JValue.obj
    [("skill_name", JValue.str "python-example"),
     ("version", JValue.str "1.0.0"),
     ("config", JValue.obj
        [("greeting_prefix", JValue.str inst.greeting),
         ("max_items", JValue.num (inst.max_items : ℚ))]),
     ("tools_available", JValue.arr
        [JValue.str "greet", JValue.str "echo", JValue.str "calculate",
         JValue.str "process_list", JValue.str "status"])]

/-- Substring containment: the pattern occurs contiguously in s. -/
def strContains (s pat : String) : Prop :=
  ∃ pre post, s = pre ++ pat ++ post

/-- The envelope invariant of spec section 3: success implies no error
message, failure implies a non-empty error message. -/
def resultInvariant (r : ExecutionResult) : Prop :=
  (r.success = true → r.error_message = none) ∧
  (r.success = false → ∃ m, r.error_message = some m ∧ m ≠ "")

/-- The arithmetic result named by the claims, written from the spec for
comparison with the calculate tool. -/
def arithSpec (operation : String) (a b : ℚ) : ℚ :=
  if operation = "add" then a + b
  else if operation = "subtract" then a - b
  else if operation = "multiply" then a * b
  else a / b

/-- A concatenation whose left part is non-empty is non-empty. -/
theorem append_ne_empty_of_left (s t : String) (h : s ≠ "") : s ++ t ≠ "" := by
  intro hc
  apply h
  have h2 := congrArg String.length hc
  rw [String.length_append, show ("" : String).length = 0 from rfl] at h2
  have h3 : s.length = 0 := by omega
  cases s with
  | mk data =>
      cases data with
      | nil => rfl
      | cons c cs => simp [String.length] at h3

/-- C10: echo with both transformation flags disabled returns the message
unchanged: it is the identity on its message argument. -/
theorem echo_no_flags_is_identity (m : String) : echo m false false = m := rfl

/-- C6: echo with both flags set equals reversal after upper-casing (the
uppercase transformation is applied first), and on the message hello it
returns OLLEH. -/
theorem echo_uppercase_then_reverse (m : String) :
    echo m true true = pyReverse (pyUpper m) ∧
    echo "hello" true true = "OLLEH" :=
  ⟨rfl, by decide⟩

/-- C8: the status tool is a function of the immutable resolved
configuration alone, so two invocations with the same configuration and no
intervening configuration change yield identical result content. -/
theorem status_deterministic (s₁ s₂ : SkillInstance)
    (hg : s₁.greeting = s₂.greeting)
    (hm : s₁.max_items = s₂.max_items) :
    status s₁ = status s₂ := by
  simp [status, hg, hm]

/-- Witness for C8 at the default-configured instance. -/
theorem status_deterministic_witness :
    status defaultInstance = status defaultInstance :=
  status_deterministic defaultInstance defaultInstance rfl rfl

/-- C4: dividing by zero yields a failing result whose error message is
Division by zero, which contains the word zero; in the embedding calculate
is a total function, so no numeric division exception arises. -/
theorem calculate_divide_by_zero (a : ℚ) :
    (calculate a 0 "divide").success = false ∧
    (calculate a 0 "divide").error_message = some "Division by zero" ∧
    strContains "Division by zero" "zero" := by
  refine ⟨?_, ?_, "Division by ", "", rfl⟩ <;>
    simp [calculate, operations, List.lookup, ExecutionResult.error]

/-- Results built by the ok constructor satisfy the envelope invariant. -/
theorem invariant_ok (m : String) (d : Option (List (String × JValue))) :
    resultInvariant (ExecutionResult.ok m d) :=
  ⟨fun _ => rfl, fun h => by simp [ExecutionResult.ok] at h⟩

/-- Results built by the error constructor on a non-empty message satisfy
the envelope invariant. -/
theorem invariant_error (e : String) (he : e ≠ "") :
    resultInvariant (ExecutionResult.error e) :=
  ⟨fun h => by simp [ExecutionResult.error] at h, fun _ => ⟨e, rfl, he⟩⟩

/-- C3: every result of the calculate and process_list tools satisfies the
envelope invariant (success implies no error message, failure implies a
non-empty one), and every such result is the value of the ok constructor or
of the error constructor. -/
theorem tools_preserve_envelope_invariant :
    (∀ (a b : ℚ) (op : String), resultInvariant (calculate a b op) ∧
      ((∃ m d, calculate a b op = ExecutionResult.ok m d) ∨
       (∃ m, calculate a b op = ExecutionResult.error m))) ∧
    (∀ (inst : SkillInstance) (parsed : Except String JValue),
      resultInvariant (process_list inst parsed) ∧
      ((∃ m d, process_list inst parsed = ExecutionResult.ok m d) ∨
       (∃ m, process_list inst parsed = ExecutionResult.error m))) := by
  constructor
  · intro a b op
    cases hl : List.lookup op operations with
    | none =>
        have hc : calculate a b op = ExecutionResult.error
            ("Unknown operation: " ++ op ++ ". Valid: " ++
              String.intercalate ", " (operations.map Prod.fst)) := by
          unfold calculate; rw [hl]
        refine ⟨?_, Or.inr ⟨_, hc⟩⟩
        rw [hc]
        exact invariant_error _
          (append_ne_empty_of_left _ _
            (append_ne_empty_of_left _ _
              (append_ne_empty_of_left _ _ (by decide))))
    | some f =>
        cases hf : f a b with
        | none =>
            have hc : calculate a b op = ExecutionResult.error
                "Division by zero" := by
              unfold calculate; rw [hl]; dsimp only; rw [hf]
            refine ⟨?_, Or.inr ⟨_, hc⟩⟩
            rw [hc]
            exact invariant_error _ (by decide)
        | some r =>
            have hc : calculate a b op = ExecutionResult.ok
                (toString a ++ " " ++ op ++ " " ++ toString b ++ " = " ++
                  toString r)
                (some [("result", JValue.num r),
                       ("operation", JValue.str op),
                       ("a", JValue.num a),
                       ("b", JValue.num b)]) := by
              unfold calculate; rw [hl]; dsimp only; rw [hf]
            refine ⟨?_, Or.inl ⟨_, _, hc⟩⟩
            rw [hc]
            exact invariant_ok _ _
  · intro inst parsed
    cases parsed with
    | error e =>
        refine ⟨?_, Or.inr ⟨_, rfl⟩⟩
        exact invariant_error _ (append_ne_empty_of_left _ _ (by decide))
    | ok v =>
        cases v with
        | arr elems =>
            by_cases hl : elems.length > inst.max_items
            · have hc : process_list inst (Except.ok (JValue.arr elems)) =
                  ExecutionResult.error
                    ("Too many items (" ++ toString elems.length ++
                      "). Maximum: " ++ toString inst.max_items) := by
                simp only [process_list]
                rw [if_pos hl]
              refine ⟨?_, Or.inr ⟨_, hc⟩⟩
              rw [hc]
              exact invariant_error _
                (append_ne_empty_of_left _ _
                  (append_ne_empty_of_left _ _
                    (append_ne_empty_of_left _ _ (by decide))))
            · cases hm : elems.filterMap coerceNumber with
              | nil =>
                  have hc : process_list inst (Except.ok (JValue.arr elems)) =
                      ExecutionResult.error "No valid numbers in input" := by
                    simp only [process_list]
                    rw [if_neg hl, hm]
                  refine ⟨?_, Or.inr ⟨_, hc⟩⟩
                  rw [hc]
                  exact invariant_error _ (by decide)
              | cons n rest =>
                  have hc : process_list inst (Except.ok (JValue.arr elems)) =
                      ExecutionResult.ok
                        ("Processed " ++ toString (n :: rest).length ++
                          " items")
                        (some [("count", JValue.num ((n :: rest).length : ℚ)),
                               ("sum", JValue.num (pySum (n :: rest))),
                               ("min", JValue.num (pyMin n rest)),
                               ("max", JValue.num (pyMax n rest)),
                               ("average",
                                JValue.num (pySum (n :: rest) /
                                  ((n :: rest).length : ℚ)))]) := by
                    simp only [process_list]
                    rw [if_neg hl, hm]
                  refine ⟨?_, Or.inl ⟨_, _, hc⟩⟩
                  rw [hc]
                  exact invariant_ok _ _
        | null =>
            exact ⟨invariant_error _ (by decide), Or.inr ⟨_, rfl⟩⟩
        | bool b =>
            exact ⟨invariant_error _ (by decide), Or.inr ⟨_, rfl⟩⟩
        | num q =>
            exact ⟨invariant_error _ (by decide), Or.inr ⟨_, rfl⟩⟩
        | str s =>
            exact ⟨invariant_error _ (by decide), Or.inr ⟨_, rfl⟩⟩
        | obj fields =>
            exact ⟨invariant_error _ (by decide), Or.inr ⟨_, rfl⟩⟩

/-- C5: an operation outside add, subtract, multiply, divide yields a
failing result whose error message enumerates exactly the four valid
operations in declaration order. -/
theorem calculate_unknown_operation (a b : ℚ) (op : String)
    (h : op ∉ ["add", "subtract", "multiply", "divide"]) :
    (calculate a b op).success = false ∧
    (calculate a b op).error_message =
      some ("Unknown operation: " ++ op ++ ". Valid: " ++
        "add, subtract, multiply, divide") := by
  simp only [List.mem_cons, List.not_mem_nil, or_false, not_or] at h
  have e1 : (op == "add") = false := beq_eq_false_iff_ne.mpr h.1
  have e2 : (op == "subtract") = false := beq_eq_false_iff_ne.mpr h.2.1
  have e3 : (op == "multiply") = false := beq_eq_false_iff_ne.mpr h.2.2.1
  have e4 : (op == "divide") = false := beq_eq_false_iff_ne.mpr h.2.2.2
  have hl : List.lookup op operations = none := by
    simp [operations, List.lookup, e1, e2, e3, e4]
  unfold calculate
  rw [hl]
  exact ⟨rfl, rfl⟩

/-- Witness for C5 at the unknown operation modulo. -/
theorem calculate_unknown_operation_witness :
    (calculate 1 2 "modulo").success = false ∧
    (calculate 1 2 "modulo").error_message =
      some ("Unknown operation: " ++ "modulo" ++ ". Valid: " ++
        "add, subtract, multiply, divide") :=
  calculate_unknown_operation 1 2 "modulo" (by decide)

/-- C1: on a valid operation, with a non-zero second operand when dividing,
calculate succeeds with no error message and its data holds the arithmetic
result together with the operation and both operands echoed unchanged. -/
theorem calculate_valid_operation (a b : ℚ) (op : String)
    (hop : op ∈ ["add", "subtract", "multiply", "divide"])
    (hdiv : op = "divide" → b ≠ 0) :
    (calculate a b op).success = true ∧
    (calculate a b op).error_message = none ∧
    (calculate a b op).data =
      some [("result", JValue.num (arithSpec op a b)),
            ("operation", JValue.str op),
            ("a", JValue.num a),
            ("b", JValue.num b)] := by
  simp only [List.mem_cons, List.not_mem_nil, or_false] at hop
  rcases hop with rfl | rfl | rfl | rfl
  · simp [calculate, operations, List.lookup, arithSpec, ExecutionResult.ok]
  · simp [calculate, operations, List.lookup, arithSpec, ExecutionResult.ok]
  · simp [calculate, operations, List.lookup, arithSpec, ExecutionResult.ok]
  · have hb : b ≠ 0 := hdiv rfl
    simp [calculate, operations, List.lookup, arithSpec, ExecutionResult.ok,
      hb]

/-- Witness for C1 at the addition of 5 and 3. -/
theorem calculate_valid_operation_witness :
    (calculate 5 3 "add").success = true ∧
    (calculate 5 3 "add").error_message = none ∧
    (calculate 5 3 "add").data =
      some [("result", JValue.num (arithSpec "add" 5 3)),
            ("operation", JValue.str "add"),
            ("a", JValue.num 5),
            ("b", JValue.num 3)] :=
  calculate_valid_operation 5 3 "add" (by decide) (by decide)

/-- C2: every validation failure of process_list is a failing result, never
an escaping exception (in the embedding process_list is a total function
into ExecutionResult): a decode error mentions Invalid JSON, a non-array
value mentions array, an oversized array cites the configured maximum, and
an array with no numeric-coercible entry mentions No valid numbers. -/
theorem process_list_failure_modes (inst : SkillInstance) (e : String)
    (v : JValue) (hv : ∀ elems, v ≠ JValue.arr elems)
    (xs : List JValue) (hxs : xs.length > inst.max_items)
    (ys : List JValue) (hys1 : ¬ ys.length > inst.max_items)
    (hys2 : ys.filterMap coerceNumber = []) :
    ((process_list inst (Except.error e)).success = false ∧
      ∃ m, (process_list inst (Except.error e)).error_message = some m ∧
        strContains m "Invalid JSON") ∧
    ((process_list inst (Except.ok v)).success = false ∧
      ∃ m, (process_list inst (Except.ok v)).error_message = some m ∧
        strContains m "array") ∧
    ((process_list inst (Except.ok (JValue.arr xs))).success = false ∧
      (process_list inst (Except.ok (JValue.arr xs))).error_message =
        some ("Too many items (" ++ toString xs.length ++ "). Maximum: " ++
          toString inst.max_items) ∧
      strContains
        ("Too many items (" ++ toString xs.length ++ "). Maximum: " ++
          toString inst.max_items) (toString inst.max_items)) ∧
    ((process_list inst (Except.ok (JValue.arr ys))).success = false ∧
      ∃ m, (process_list inst (Except.ok (JValue.arr ys))).error_message =
        some m ∧ strContains m "No valid numbers") := by
  have hbig : process_list inst (Except.ok (JValue.arr xs)) =
      ExecutionResult.error
        ("Too many items (" ++ toString xs.length ++ "). Maximum: " ++
          toString inst.max_items) := by
    simp only [process_list]
    rw [if_pos hxs]
  have hnone : process_list inst (Except.ok (JValue.arr ys)) =
      ExecutionResult.error "No valid numbers in input" := by
    simp only [process_list]
    rw [if_neg hys1, hys2]
  refine ⟨⟨rfl, "Invalid JSON: " ++ e, rfl, "", ": " ++ e, rfl⟩, ?_,
    ⟨?_, ?_, ?_⟩, ?_⟩
  · cases v with
    | arr elems => exact absurd rfl (hv elems)
    | null =>
        exact ⟨rfl, "Input must be a JSON array", rfl,
          "Input must be a JSON ", "", rfl⟩
    | bool b =>
        exact ⟨rfl, "Input must be a JSON array", rfl,
          "Input must be a JSON ", "", rfl⟩
    | num q =>
        exact ⟨rfl, "Input must be a JSON array", rfl,
          "Input must be a JSON ", "", rfl⟩
    | str s =>
        exact ⟨rfl, "Input must be a JSON array", rfl,
          "Input must be a JSON ", "", rfl⟩
    | obj fields =>
        exact ⟨rfl, "Input must be a JSON array", rfl,
          "Input must be a JSON ", "", rfl⟩
  · rw [hbig]; exact rfl
  · rw [hbig]; exact rfl
  · exact ⟨"Too many items (" ++ toString xs.length ++ "). Maximum: ", "",
      by rw [String.append_empty]⟩
  · exact ⟨by rw [hnone]; exact rfl, "No valid numbers in input",
      by rw [hnone]; exact rfl, "", " in input", rfl⟩

/-- Witness for C2: an unparseable input, an object value, a three-element
array against a maximum of two, and a one-string array. -/
theorem process_list_failure_modes_witness :
    ((process_list ⟨"Hello", 2⟩ (Except.error "oops")).success = false ∧
      ∃ m, (process_list ⟨"Hello", 2⟩
          (Except.error "oops")).error_message = some m ∧
        strContains m "Invalid JSON") ∧
    ((process_list ⟨"Hello", 2⟩ (Except.ok (JValue.obj []))).success =
        false ∧
      ∃ m, (process_list ⟨"Hello", 2⟩
          (Except.ok (JValue.obj []))).error_message = some m ∧
        strContains m "array") ∧
    ((process_list ⟨"Hello", 2⟩
        (Except.ok (JValue.arr [JValue.null, JValue.null,
          JValue.null]))).success = false ∧
      (process_list ⟨"Hello", 2⟩
          (Except.ok (JValue.arr [JValue.null, JValue.null,
            JValue.null]))).error_message =
        some ("Too many items (" ++
          toString [JValue.null, JValue.null, JValue.null].length ++
          "). Maximum: " ++ toString (SkillInstance.mk "Hello" 2).max_items) ∧
      strContains
        ("Too many items (" ++
          toString [JValue.null, JValue.null, JValue.null].length ++
          "). Maximum: " ++ toString (SkillInstance.mk "Hello" 2).max_items)
        (toString (SkillInstance.mk "Hello" 2).max_items)) ∧
    ((process_list ⟨"Hello", 2⟩
        (Except.ok (JValue.arr [JValue.str "a"]))).success = false ∧
      ∃ m, (process_list ⟨"Hello", 2⟩
          (Except.ok (JValue.arr [JValue.str "a"]))).error_message =
        some m ∧ strContains m "No valid numbers") :=
  process_list_failure_modes ⟨"Hello", 2⟩ "oops" (JValue.obj [])
    (fun elems h => JValue.noConfusion h)
    [JValue.null, JValue.null, JValue.null] (by decide)
    [JValue.str "a"] (by decide) rfl

/-- C7: process_list on the parsed array of one to five succeeds with count
five, sum fifteen, minimum one, maximum five, and average three. -/
theorem process_list_sample_statistics :
    (process_list defaultInstance
      (Except.ok (JValue.arr [JValue.num 1, JValue.num 2, JValue.num 3,
        JValue.num 4, JValue.num 5]))).success = true ∧
    (process_list defaultInstance
      (Except.ok (JValue.arr [JValue.num 1, JValue.num 2, JValue.num 3,
        JValue.num 4, JValue.num 5]))).message = "Processed 5 items" ∧
    (process_list defaultInstance
      (Except.ok (JValue.arr [JValue.num 1, JValue.num 2, JValue.num 3,
        JValue.num 4, JValue.num 5]))).error_message = none ∧
    (process_list defaultInstance
      (Except.ok (JValue.arr [JValue.num 1, JValue.num 2, JValue.num 3,
        JValue.num 4, JValue.num 5]))).data =
      some [("count", JValue.num 5), ("sum", JValue.num 15),
            ("min", JValue.num 1), ("max", JValue.num 5),
            ("average", JValue.num 3)] := by
  refine ⟨rfl, rfl, rfl, ?_⟩
  have h0 : (process_list defaultInstance
      (Except.ok (JValue.arr [JValue.num 1, JValue.num 2, JValue.num 3,
        JValue.num 4, JValue.num 5]))).data =
      some [("count", JValue.num (([(1:ℚ), 2, 3, 4, 5].length : ℚ))),
            ("sum", JValue.num (pySum [(1:ℚ), 2, 3, 4, 5])),
            ("min", JValue.num (pyMin 1 [(2:ℚ), 3, 4, 5])),
            ("max", JValue.num (pyMax 1 [(2:ℚ), 3, 4, 5])),
            ("average", JValue.num (pySum [(1:ℚ), 2, 3, 4, 5] /
              ([(1:ℚ), 2, 3, 4, 5].length : ℚ)))] := rfl
  rw [h0]
  norm_num [pySum, pyMin, pyMax, List.foldl]

/-- C9: JSON booleans pass the numeric filter of process_list, true
coercing to one and false to zero, so the two-element array of true and
false succeeds with count two and sum one (statistics of the list one,
zero). -/
theorem process_list_counts_booleans :
    (∀ b : Bool, coerceNumber (JValue.bool b) =
      some (if b then 1 else 0)) ∧
    (process_list defaultInstance
      (Except.ok (JValue.arr [JValue.bool true,
        JValue.bool false]))).success = true ∧
    (process_list defaultInstance
      (Except.ok (JValue.arr [JValue.bool true,
        JValue.bool false]))).error_message = none ∧
    (process_list defaultInstance
      (Except.ok (JValue.arr [JValue.bool true,
        JValue.bool false]))).data =
      some [("count", JValue.num 2), ("sum", JValue.num 1),
            ("min", JValue.num 0), ("max", JValue.num 1),
            ("average", JValue.num (1 / 2))] := by
  refine ⟨fun b => rfl, rfl, rfl, ?_⟩
  have h0 : (process_list defaultInstance
      (Except.ok (JValue.arr [JValue.bool true,
        JValue.bool false]))).data =
      some [("count", JValue.num (([(1:ℚ), 0].length : ℚ))),
            ("sum", JValue.num (pySum [(1:ℚ), 0])),
            ("min", JValue.num (pyMin 1 [(0:ℚ)])),
            ("max", JValue.num (pyMax 1 [(0:ℚ)])),
            ("average", JValue.num (pySum [(1:ℚ), 0] /
              ([(1:ℚ), 0].length : ℚ)))] := rfl
  rw [h0]
  norm_num [pySum, pyMin, pyMax, List.foldl]
